import Mathlib

/-!
Shallow embedding of `enhanced_mzalendo_scraper.py` (class `EnhancedMzalendoScraper`).

HTML pages are modelled as structures holding the outcome of each CSS-selector
probe the scraper performs (the selector strings themselves are site
configuration); all parsing, derivation and orchestration logic is translated
from the Python source.  Machine-level details that are modelled:

* `requests` fetches are an oracle `World.fetchListing` / `World.fetchDetail`
  returning `Option` (`None` = all retries exhausted, as `get_page` returns
  `None`);
* Python exceptions inside the one big `try` of
  `parse_politician_detail_page` are `Except Unit`;
* the implicit `return None` that Python's `get_pagination_links` performs
  when control falls off the end of the function is `Option.none`;
* `json.dump` persistence is an append-only log of `SavedFile` values, with an
  oracle `World.saveOk` for filesystem failures (the only exception source in
  the per-candidate `try` of `scrape_leaders`).
-/

set_option autoImplicit false

namespace Mzalendo

/-! ## String utilities translating Python primitives

All of these are written by structural recursion over the character list, so
that every concrete scraper computation reduces inside the kernel. -/

/-- Python `needle in haystack` (substring test) on lists of characters. -/
def listIsInfixOf (nee : List Char) : List Char → Bool
  | [] => nee.isEmpty
  | c :: rest => nee.isPrefixOf (c :: rest) || listIsInfixOf nee rest

/-- Python `nee in hay` for strings: substring containment. -/
def strContains (hay nee : String) : Bool :=
  listIsInfixOf nee.toList hay.toList

/-- Python `s.startswith(pre)`. -/
def pyStartsWith (s pre : String) : Bool :=
  pre.toList.isPrefixOf s.toList

/-- Python `s.endswith(suf)`. -/
def pyEndsWith (s suf : String) : Bool :=
  suf.toList.reverse.isPrefixOf s.toList.reverse

/-- Python `s.strip()`: whitespace removed from both ends. -/
def pyStrip (s : String) : String :=
  String.mk (((s.toList.dropWhile Char.isWhitespace).reverse.dropWhile
    Char.isWhitespace).reverse)

/-- Python `s.lower()`. -/
def pyLower (s : String) : String :=
  String.mk (s.toList.map Char.toLower)

/-- One fuel-driven step list of Python `s.replace(pat, rep)`: replaces each
non-overlapping occurrence left to right.  The fuel is an upper bound on the
number of characters still to consume (the scraper only replaces non-empty
patterns, for which one step always consumes at least one character). -/
def replaceAux (pat rep : List Char) : Nat → List Char → List Char
  | 0, l => l
  | _ + 1, [] => []
  | fuel + 1, c :: rest =>
    if pat.isPrefixOf (c :: rest) && !pat.isEmpty then
      rep ++ replaceAux pat rep fuel ((c :: rest).drop pat.length)
    else c :: replaceAux pat rep fuel rest

/-- Python `s.replace(pat, rep)` for a non-empty `pat` (the only way the
scraper calls it). -/
def pyReplace (s pat rep : String) : String :=
  String.mk (replaceAux pat.toList rep.toList s.toList.length s.toList)

/-- Python `s.split(sep)` for a single-character separator (the scraper only
splits on `'-'` and `'/'`). -/
def splitOnChar (sep : Char) : List Char → List (List Char)
  | [] => [[]]
  | c :: rest =>
    let r := splitOnChar sep rest
    if c = sep then [] :: r
    else
      match r with
      | [] => [[c]]
      | g :: gs => (c :: g) :: gs

/-- `splitOnChar` on strings. -/
def pySplitChar (sep : Char) (s : String) : List String :=
  (splitOnChar sep s.toList).map String.mk

/-- Python `int(s)` on a string of decimal digits. -/
def strToNat (s : String) : Nat :=
  s.toList.foldl (fun n c => n * 10 + (c.toNat - 48)) 0

/-- Python `re.search(r'\d+', s)`: the first maximal run of digits, as a
number (`int(match.group())`), or `none` when `s` has no digit. -/
def firstNumber (s : String) : Option Nat :=
  go s.toList
where
  go : List Char → Option Nat
  | [] => none
  | c :: rest =>
    if c.isDigit then some (strToNat (String.mk ((c :: rest).takeWhile Char.isDigit)))
    else go rest

/-- Python's `str.strip('/')`: drop `'/'` characters from both ends. -/
def stripSlashes (s : String) : String :=
  String.mk ((((s.toList.dropWhile (· = '/')).reverse.dropWhile (· = '/'))).reverse)

/-- ASCII model of `\w` in the scraper's regexes (Python `re` also accepts
other Unicode word characters; the site's slugs and names are ASCII). -/
def isWordChar (c : Char) : Bool :=
  c.isAlphanum || c = '_'

/-- A character of the class `[\w\s\-]` used by the `Member of` / `Member for`
capture groups. -/
def isWordSpaceDash (c : Char) : Bool :=
  isWordChar c || c.isWhitespace || c = '-'

/-- `re.sub(r'[^\w\-]', '', s)` from `save_politician_data`. -/
def sanitizeId (s : String) : String :=
  String.mk (s.toList.filter fun c => isWordChar c || c = '-')

/-- The scraper's `self.base_url`. -/
def base_url : String := "https://mzalendo.com"

/-- Model of `urllib.parse.urljoin(base, href)` restricted to the shapes the
scraper meets: absolute URLs pass through; root-relative paths and bare query
strings are attached to the host; other relative paths are attached after a
slash (`self.base_url` carries no path component). -/
def urljoin (base href : String) : String :=
  if pyStartsWith href "http://" || pyStartsWith href "https://" then href
  else if pyStartsWith href "/" || pyStartsWith href "?" then base ++ href
  else if href = "" then base
  else base ++ "/" ++ href

/-- Order-preserving de-duplication,
`[x for x in l if not (x in seen or seen.add(x))]`. -/
def dedupPreserve (l : List String) : List String :=
  go [] l
where
  go : List String → List String → List String
  | _, [] => []
  | seen, x :: rest => if x ∈ seen then go seen rest else x :: go (x :: seen) rest

/-! ## Data model

The record dictionaries built by the scraper, as structures whose `Option`
fields model presence/absence of the corresponding dictionary key. -/

/-- `election_data` dictionary. -/
structure Election where
  electedDate : Option String := none
  totalVotes : Option Nat := none
  deriving Repr, DecidableEq

/-- `social_media` dictionary (only `twitter` / `facebook` keys exist). -/
structure SocialMedia where
  twitter : Option String := none
  facebook : Option String := none
  deriving Repr, DecidableEq

/-- `contact_info` dictionary. -/
structure Contact where
  email : Option String := none
  phone : Option (List String) := none
  office : Option String := none
  socialMedia : Option SocialMedia := none
  deriving Repr, DecidableEq

/-- One entry of the `positions` list. -/
structure PositionInfo where
  title : String
  organization : Option String := none
  date : Option String := none
  deriving Repr, DecidableEq

/-- One entry of the `promises` list. -/
structure Promise where
  id : String
  description : String
  category : String
  madeDate : Option String := none
  dueDate : Option String := none
  status : String := "in-progress"
  deriving Repr, DecidableEq

/-- One entry of the `attendance` list. -/
structure AttRecord where
  period : String
  present : Option Nat := none
  absent : Option Nat := none
  total : Option Nat := none
  deriving Repr, DecidableEq

/-- The politician dictionary: the seven keys created by
`parse_politician_list_page` plus every key `parse_politician_detail_page`,
`scrape_leaders` and the derived-field code may add later. -/
structure PoliticianData where
  name : String
  position : String
  constituency : Option String := none
  county : Option String := none
  profile_url : String
  image_url : Option String := none
  category : String
  id : Option String := none
  party : Option String := none
  election : Option Election := none
  contact : Option Contact := none
  education : Option (List String) := none
  positions : Option (List PositionInfo) := none
  promises : Option (List Promise) := none
  attendance : Option (List AttRecord) := none
  committees : Option (List String) := none
  approvalRating : Option ℚ := none
  keyAchievements : Option (List String) := none
  subcategory : Option String := none
  deriving Repr, DecidableEq

/-! ## Promise classifier (`categorize_promise`, lines 431-451) -/

/-- The `categories_keywords` dictionary, in insertion order. -/
def categories_keywords : List (String × List String) :=
  [("Education", ["education", "school", "university", "college", "student", "learning"]),
   ("Healthcare", ["health", "hospital", "medical", "clinic", "doctor", "disease", "treatment"]),
   ("Infrastructure", ["road", "bridge", "building", "construction", "infrastructure"]),
   ("Water", ["water", "irrigation", "dam", "borehole", "pipeline"]),
   ("Agriculture", ["farm", "agriculture", "crop", "livestock", "cattle", "dairy"]),
   ("Economy", ["economy", "business", "enterprise", "job", "employment", "income"]),
   ("Security", ["security", "police", "crime", "safety"])]

/-- Inner loop `for keyword in keywords: if keyword in promise_lower: return category`. -/
def scanKeywords (lower : String) : List String → Bool
  | [] => false
  | kw :: rest => if strContains lower kw then true else scanKeywords lower rest

/-- Outer loop `for category, keywords in categories_keywords.items()`. -/
def scanCategories (lower : String) : List (String × List String) → String
  | [] => "Other"
  | (cat, kws) :: rest => if scanKeywords lower kws then cat else scanCategories lower rest

/-- `categorize_promise(self, promise_text)`. -/
def categorize_promise (promise_text : String) : String :=
  scanCategories (pyLower promise_text) categories_keywords

/-- The specification's wording of the classifier: the earliest declared
category one of whose keywords occurs in the lowercased text; `"Other"` when
no keyword matches anywhere.  Stated as a first-match query instead of the
loop-structured translation `categorize_promise` above; that `strContains`
means "is a substring of" is proved separately. -/
def categorizeSpec (text : String) : String :=
  match categories_keywords.find? (fun ck => ck.2.any fun kw => strContains (pyLower text) kw) with
  | some ck => ck.1
  | none => "Other"

/-! ## Detail-page model (`parse_politician_detail_page`, lines 190-429)

A `DetailHtml` holds, per sub-section, the outcome of the selector probes the
function performs on the soup.  A field is `none` when the (primary or
fallback) selector matched nothing; element text is carried as the string
bs4's `.text` would return, stripping happens in the translated code exactly
where the Python calls `.strip()`. -/

/-- `.election-results` block: `.date` and `.votes` child probes. -/
structure ElectionHtml where
  dateText : Option String := none
  votesText : Option String := none
  deriving Repr, DecidableEq

/-- `#contact` / `.contact-details` block. -/
structure ContactHtml where
  mailtoHref : Option String := none
  telHrefs : List String := []
  officeText : Option String := none
  twitterHref : Option String := none
  facebookHref : Option String := none
  deriving Repr, DecidableEq

/-- One position entry; `title_elem = entry.select_one('.position-title') or entry`
never fails, so the title text is total. -/
structure PositionEntryHtml where
  titleText : String
  orgText : Option String := none
  dateText : Option String := none
  deriving Repr, DecidableEq

/-- The `#experience` block (primary selector only; see `experienceSection`
for the `.person-detail-experience` fallback). -/
structure ExperienceHtml where
  eduTexts : List String := []
  positionEntries : List PositionEntryHtml := []
  deriving Repr, DecidableEq

/-- One `.statement` element: its date and text child probes. -/
structure StatementHtml where
  dateText : Option String := none
  text : Option String := none
  deriving Repr, DecidableEq

/-- One attendance row: `isHeader` is `entry.select_one('th')` being present. -/
structure AttEntryHtml where
  isHeader : Bool := false
  periodText : Option String := none
  presentText : Option String := none
  absentText : Option String := none
  deriving Repr, DecidableEq

/-- Selector-probe outcomes of a politician detail page. -/
structure DetailHtml where
  /-- `.person-party-membership` text. -/
  partyText : Option String := none
  /-- `.location a` text. -/
  locationText : Option String := none
  /-- `.election-results`. -/
  election : Option ElectionHtml := none
  /-- `#contact` or `.contact-details`. -/
  contact : Option ContactHtml := none
  /-- `soup.select_one('#experience')`. -/
  expPrimary : Option ExperienceHtml := none
  /-- Whether `soup.select('.person-detail-experience')` is non-empty: the
  Python code then assigns the `ResultSet` to `experience_section` and calls
  `.select` on it, which raises `AttributeError` (a `ResultSet` is a list of
  elements, not an element). -/
  expFallbackNonempty : Bool := false
  /-- `#statements .statement` (or fallback `.statement`) elements. -/
  statements : List StatementHtml := []
  /-- `#attendance` or `.attendance` rows. -/
  attendance : Option (List AttEntryHtml) := none
  /-- `#committees` or `.committees` entry texts. -/
  committees : Option (List String) := none
  deriving Repr, DecidableEq

/-- `re.search(r'Member of ([\w\s\-]+)', party_text)`: leftmost position where
the literal is followed by at least one class character; the greedy capture is
the maximal class run. -/
def searchMemberOf (s : String) : Option String :=
  go s.toList
where
  go : List Char → Option String
  | [] => none
  | c :: rest =>
    if ("Member of ".toList).isPrefixOf (c :: rest) then
      let run := ((c :: rest).drop 10).takeWhile isWordSpaceDash
      if run.isEmpty then go rest else some (String.mk run)
    else go rest

/-- Party affiliation section (lines 204-210). -/
def partyApply (page : DetailHtml) (d : PoliticianData) : PoliticianData :=
  match page.partyText with
  | none => d
  | some t =>
    match searchMemberOf (pyStrip t) with
    | some captured => { d with party := some (pyStrip captured) }
    | none => d

/-- County section (lines 212-217). -/
def countyApply (page : DetailHtml) (d : PoliticianData) : PoliticianData :=
  match page.locationText with
  | none => d
  | some t =>
    let county_text := pyStrip t
    if strContains county_text "County" then
      { d with county := some (pyStrip (pyReplace county_text "County" "")) }
    else d

/-- Election data section (lines 219-235).  `electedDate` is assigned the
stripped text whenever `.date` matches (even when empty); `totalVotes` only
when `.votes` text contains a digit; the dictionary is stored iff non-empty. -/
def electionApply (page : DetailHtml) (d : PoliticianData) : PoliticianData :=
  match page.election with
  | none => d
  | some e =>
    let ed := e.dateText.map pyStrip
    let tv := match e.votesText with
      | none => none
      | some vt => firstNumber (pyStrip vt)
    if ed.isSome || tv.isSome then
      { d with election := some { electedDate := ed, totalVotes := tv } }
    else d

/-- Contact section (lines 237-272). -/
def contactApply (page : DetailHtml) (d : PoliticianData) : PoliticianData :=
  match page.contact with
  | none => d
  | some c =>
    let email := c.mailtoHref.map fun h => pyStrip (pyReplace h "mailto:" "")
    let phone := if c.telHrefs.isEmpty then none
      else some (c.telHrefs.map fun h => pyStrip (pyReplace h "tel:" ""))
    let office := c.officeText.map pyStrip
    let twitter := c.twitterHref.map pyStrip
    let facebook := c.facebookHref.map pyStrip
    let socialMedia := if twitter.isSome || facebook.isSome then
        some { twitter := twitter, facebook := facebook : SocialMedia }
      else none
    if email.isSome || phone.isSome || office.isSome || socialMedia.isSome then
      { d with contact := some { email, phone, office, socialMedia } }
    else d

/-- Experience/education section (lines 274-319).  When `#experience` is
absent but `.person-detail-experience` matches, the Python code calls
`.select` on a `ResultSet` and raises `AttributeError`, which the single
top-level `except` of `parse_politician_detail_page` catches: modelled as
`Except.error`. -/
def experienceSection (page : DetailHtml) (d : PoliticianData) :
    Except Unit PoliticianData :=
  match page.expPrimary with
  | some sec =>
    let education := (sec.eduTexts.map pyStrip).filter fun t => 5 < t.length
    let d := if education.isEmpty then d else { d with education := some education }
    let positions := sec.positionEntries.filterMap fun e =>
      let title := pyStrip e.titleText
      if title = "" then none
      else some { title := title
                  organization := e.orgText.map pyStrip
                  date := match e.dateText with
                    | none => none
                    | some dt => let t := pyStrip dt; if t = "" then none else some t
                  : PositionInfo }
    let d := if positions.isEmpty then d else { d with positions := some positions }
    .ok d
  | none => if page.expFallbackNonempty then .error () else .ok d

/-- `re.match(r'\d{4}-\d{2}-\d{2}', s)`: an (unanchored-at-the-end) prefix
match of four digits, dash, two digits, dash, two digits. -/
def isIsoDateStart (s : String) : Bool :=
  match s.toList with
  | a :: b :: c :: d :: '-' :: e :: f :: '-' :: g :: h :: _ =>
    a.isDigit && b.isDigit && c.isDigit && d.isDigit &&
      e.isDigit && f.isDigit && g.isDigit && h.isDigit
  | _ => false

/-- The body of the statements loop (lines 324-348) for one statement, where
`count` is the number of promises appended so far (`len(promises)`).  Returns
`none` when nothing is appended for this statement.
`year, month, day = date_text.split('-')` raises `ValueError` when the split
does not have exactly three parts (possible because the regex match is only a
prefix match), modelled as `Except.error`. -/
def promiseOfStatement (st : StatementHtml) (count : Nat) : Except Unit (Option Promise) :=
  match st.text with
  | none => .ok none
  | some tx =>
    let promise_text := pyStrip tx
    if promise_text = "" then .ok none
    else
      let base : Promise :=
        { id := "pr" ++ toString (count + 1)
          description := promise_text
          category := categorize_promise promise_text
          status := "in-progress" }
      match st.dateText with
      | none => .ok (some base)
      | some dt0 =>
        let date_text := pyStrip dt0
        if date_text = "" then .ok (some base)
        else if isIsoDateStart date_text then
          match pySplitChar '-' date_text with
          | [year, month, day] =>
            let due_year := strToNat year + 3
            .ok (some { base with
              madeDate := some date_text
              dueDate := some (toString due_year ++ "-" ++ month ++ "-" ++ day) })
          | _ => .error ()
        else .ok (some { base with madeDate := some date_text })

/-- The statements loop itself (lines 322-348), accumulating the `promises`
list; an exception in one statement aborts the loop (and with it all later
sections). -/
def buildPromises : List StatementHtml → List Promise → Except Unit (List Promise)
  | [], acc => .ok acc
  | st :: rest, acc =>
    match promiseOfStatement st acc.length with
    | .error e => .error e
    | .ok none => buildPromises rest acc
    | .ok (some promise) => buildPromises rest (acc ++ [promise])

/-- Promises section (lines 321-351): run the statements loop (which may
raise), then store the list iff it is non-empty. -/
def promisesSection (page : DetailHtml) (d : PoliticianData) :
    Except Unit PoliticianData :=
  match buildPromises page.statements [] with
  | .error e => .error e
  | .ok promises =>
    .ok (if promises.isEmpty then d else { d with promises := some promises })

/-- Attendance section (lines 353-390). -/
def attendanceApply (page : DetailHtml) (d : PoliticianData) : PoliticianData :=
  match page.attendance with
  | none => d
  | some entries =>
    let attendance := entries.filterMap fun e =>
      if e.isHeader then none
      else match e.periodText with
        | none => none
        | some ptx =>
          let period := pyStrip ptx
          if period = "" then none
          else
            let present := match e.presentText with
              | none => none
              | some t => let s := pyStrip t; if s = "" then none else firstNumber s
            let absent := match e.absentText with
              | none => none
              | some t => let s := pyStrip t; if s = "" then none else firstNumber s
            let total := match present, absent with
              | some p, some a => some (p + a)
              | _, _ => none
            some { period, present, absent, total : AttRecord }
    if attendance.isEmpty then d else { d with attendance := some attendance }

/-- Committees section (lines 392-404). -/
def committeesApply (page : DetailHtml) (d : PoliticianData) : PoliticianData :=
  match page.committees with
  | none => d
  | some entries =>
    let committees := (entries.map pyStrip).filter fun t => t ≠ ""
    if committees.isEmpty then d else { d with committees := some committees }

/-! ## Derived fields (lines 406-424) -/

/-- `sum(record.get('present', 0) for record in attendance)`. -/
def sumPresent (att : List AttRecord) : Nat :=
  (att.map fun r => r.present.getD 0).sum

/-- `sum(record.get('total', 0) for record in attendance)`. -/
def sumTotal (att : List AttRecord) : Nat :=
  (att.map fun r => r.total.getD 0).sum

/-- Round-half-to-even to an integer, the rounding mode of Python's built-in
`round`, computed on the numerator and (positive) denominator: with
`f = ⌊q⌋ = num.fdiv den` the fractional part is `(num - f * den) / den`,
compared against `1/2` by cross-multiplication. -/
def roundHalfEven (q : ℚ) : ℤ :=
  let f := q.num.fdiv q.den
  let rnum := q.num - f * q.den
  if 2 * rnum < (q.den : ℤ) then f
  else if (q.den : ℤ) < 2 * rnum then f + 1
  else if f % 2 = 0 then f else f + 1

/-- Python `round(x, 1)`, with the float arithmetic modelled exactly over ℚ.
`q * 10` and the final division by 10 are assembled with `mkRat` on the raw
numerator/denominator so the whole computation stays kernel-reducible. -/
def pyRound1 (q : ℚ) : ℚ :=
  mkRat (roundHalfEven (mkRat (q.num * 10) q.den)) 10

/-- Approval-rating derivation (lines 408-415). -/
def approvalApply (d : PoliticianData) : PoliticianData :=
  match d.attendance with
  | none => d
  | some att =>
    if att.isEmpty then d
    else
      let total_present := sumPresent att
      let total_sessions := sumTotal att
      if 0 < total_sessions then
        -- the exact value of `(total_present / total_sessions) * 5`, built as
        -- one fraction (see `mkRat_five_div` for the equality)
        let approval_rating := pyRound1 (mkRat (total_present * 5 : Int) total_sessions)
        { d with approvalRating := some approval_rating }
      else d

/-- Key-achievements derivation (lines 417-424). -/
def achievementsApply (d : PoliticianData) : PoliticianData :=
  match d.promises with
  | none => d
  | some ps =>
    if ps.isEmpty then d
    else
      let achievements := (ps.take 5).map Promise.description
      if achievements.isEmpty then d else { d with keyAchievements := some achievements }

/-! ## The detail parse as a whole -/

/-- Runs the bodies of the single `try` block in order.  An `Except.error`
models a Python exception: control jumps to the top-level `except`, which
logs and returns the data accumulated so far — all later sections are
skipped. -/
def runSections : List (PoliticianData → Except Unit PoliticianData) →
    PoliticianData → PoliticianData
  | [], d => d
  | s :: rest, d =>
    match s d with
    | .ok d2 => runSections rest d2
    | .error _ => d

/-- The section bodies of the `try` block of `parse_politician_detail_page`,
in source order. -/
def sections (page : DetailHtml) :
    List (PoliticianData → Except Unit PoliticianData) :=
  [fun d => .ok (partyApply page d),
   fun d => .ok (countyApply page d),
   fun d => .ok (electionApply page d),
   fun d => .ok (contactApply page d),
   experienceSection page,
   promisesSection page,
   fun d => .ok (attendanceApply page d),
   fun d => .ok (committeesApply page d),
   fun d => .ok (approvalApply d),
   fun d => .ok (achievementsApply d)]

/-- The tail of the detail parse from the experience section on; used by
`parse_some_eq` to expose the two exception points of the pipeline. -/
def detailTail (page : DetailHtml) (d1 : PoliticianData) : PoliticianData :=
  match experienceSection page d1 with
  | .error _ => d1
  | .ok d2 =>
    match promisesSection page d2 with
    | .error _ => d2
    | .ok d3 =>
      achievementsApply (approvalApply (committeesApply page (attendanceApply page d3)))

/-- `basic_info['profile_url'].strip('/').split('/')[-1]` (line 199). -/
def extractId (profile_url : String) : String :=
  (pySplitChar '/' (stripSlashes profile_url)).getLastD ""

/-- `parse_politician_detail_page(self, html, basic_info)` (lines 190-429).
`html = None` (fetch exhausted) returns the basic info untouched; otherwise
the id is attached and the sections of the `try` block run in order until
completion or the first exception. -/
def parse_politician_detail_page (html : Option DetailHtml)
    (basic_info : PoliticianData) : PoliticianData :=
  match html with
  | none => basic_info
  | some page =>
    runSections (sections page)
      { basic_info with id := some (extractId basic_info.profile_url) }

/-! ## Listing page (`parse_politician_list_page`, lines 110-165) -/

/-- One `.mp_card` element's probe outcomes. -/
structure CardHtml where
  /-- `.shujaa_details a`: (text, href), or `none` when the card is skipped. -/
  nameLink : Option (String × String) := none
  /-- `.shujaa_details p` text. -/
  positionText : Option String := none
  /-- `.mp_pic img` with a `src` attribute. -/
  imgSrc : Option String := none
  deriving Repr, DecidableEq

/-- A listing page: its cards and the hrefs of
`.pagination-container a.number_box` links that carry an `href` attribute. -/
structure ListingHtml where
  cards : List CardHtml := []
  paginationHrefs : List String := []
  deriving Repr, DecidableEq

/-- The greedy capture of `re.search(r'Member for ([\w\s\-]+) Constituency', s)`:
at the leftmost viable position, the longest class run after the literal that
leaves a literal `" Constituency"` immediately after the capture. -/
def constituencyAt (after : List Char) : Option String :=
  let run := after.takeWhile isWordSpaceDash
  let rest := after.drop run.length
  backtrack run rest run.length
where
  backtrack (run rest : List Char) : Nat → Option String
  | 0 => none
  | k + 1 =>
    if (" Constituency".toList).isPrefixOf (run.drop (k + 1) ++ rest) then
      some (String.mk (run.take (k + 1)))
    else backtrack run rest k

/-- Full search for the constituency regex: scan for the leftmost position at
which the whole pattern (with backtracking) succeeds. -/
def searchConstituency (s : String) : Option String :=
  go s.toList
where
  go : List Char → Option String
  | [] => none
  | c :: rest =>
    if ("Member for ".toList).isPrefixOf (c :: rest) then
      match constituencyAt ((c :: rest).drop 11) with
      | some cap => some cap
      | none => go rest
    else go rest

/-- `parse_politician_list_page(self, html, category)`.  `html = None` yields
`[]`; a card without a name link is skipped (`continue`); the placeholder
image `default-person.jpg` is nulled. -/
def parse_politician_list_page (html : Option ListingHtml) (category : String) :
    List PoliticianData :=
  match html with
  | none => []
  | some h =>
    h.cards.filterMap fun item =>
      match item.nameLink with
      | none => none
      | some (ntext, href) =>
        let name := pyStrip ntext
        let profile_url := urljoin base_url href
        let position := (item.positionText.map pyStrip).getD "Unknown"
        let constituency := if strContains position "Member for" then
            searchConstituency position |>.map pyStrip
          else none
        let image_url := match item.imgSrc with
          | none => none
          | some src =>
            let u := urljoin base_url src
            if pyEndsWith u "default-person.jpg" then none else some u
        some { name, position, constituency, county := none, profile_url,
               image_url, category : PoliticianData }

/-! ## Pagination extraction (`get_pagination_links`, lines 167-188)

The `if not any('page=1' in url ...)` branch contains the de-duplicate
**and the only `return` statement** of the function; when some collected URL
does contain the substring `'page=1'`, control falls off the end of the
function and Python returns `None` — modelled as `Option.none`. -/

/-- `get_pagination_links(self, html)`. -/
def get_pagination_links (html : ListingHtml) : Option (List String) :=
  let page_urls := html.paginationHrefs.map (urljoin base_url)
  if !(page_urls.any fun u => strContains u "page=1") then
    let burl := urljoin base_url "/parliament/national_assembly/"
    some (dedupPreserve (burl :: page_urls))
  else none

/-! ## Orchestration (`scrape_leaders`, lines 65-108, and
`scrape_leaders_threaded`, lines 453-505) -/

/-- One file written by `save_politician_data` (lines 507-522): the category
directory, the sanitized filename stem, and the dumped record. -/
structure SavedFile where
  category : String
  safeId : String
  data : PoliticianData
  deriving Repr, DecidableEq

/-- `save_politician_data(self, politician_data, category)`: the id falls back
to a slug of the name when the record carries no `id` key. -/
def savedFileFor (category : String) (politician_data : PoliticianData) : SavedFile :=
  let politician_id := match politician_data.id with
    | none => pyReplace (pyLower politician_data.name) " " "-"
    | some i => i
  { category, safeId := sanitizeId politician_id, data := politician_data }

/-- The deterministic outcome of the run's environment: what `get_page`
ultimately returns for each listing and detail URL (`none` = all retries
exhausted), and whether the `json.dump` for a record succeeds (its failure is
the one exception source inside the per-candidate `try`). -/
structure World where
  fetchListing : String → Option ListingHtml
  fetchDetail : String → Option DetailHtml
  saveOk : PoliticianData → Bool

/-- `if subcategory: detailed_data['subcategory'] = subcategory` (Python
truthiness: the empty string does not tag). -/
def withSub (subcategory : Option String) (d : PoliticianData) : PoliticianData :=
  match subcategory with
  | none => d
  | some s => if s = "" then d else { d with subcategory := some s }

/-- The sequential per-politician loop of `scrape_leaders` (lines 90-105):
fetch the detail page, parse, tag the subcategory, save, append; an exception
(a failed save) is caught, logged, and the loop continues with the next
politician. -/
def seqDetailLoop (w : World) (category : String) (subcategory : Option String) :
    List PoliticianData → List PoliticianData × List SavedFile
  | [] => ([], [])
  | politician :: rest =>
    let detail_html := w.fetchDetail politician.profile_url
    let detailed_data := withSub subcategory (parse_politician_detail_page detail_html politician)
    let (ds, fs) := seqDetailLoop w category subcategory rest
    if w.saveOk detailed_data then
      (detailed_data :: ds, savedFileFor category detailed_data :: fs)
    else (ds, fs)

/-- Abort of a category scrape: the uncaught `TypeError` raised by
`for page_url in pagination_urls:` when `get_pagination_links` returned
`None`. -/
inductive ScrapeAbort where
  | typeError
  deriving Repr, DecidableEq

/-- Outcome of the listing phase shared verbatim by both modes (lines 70-84
and 457-472): fetch the seed page, parse its cards, collect pagination
links, then fetch and parse each additional page sequentially. -/
inductive ListingOutcome where
  /-- `if not html: return []` — the seed fetch exhausted its retries. -/
  | seedFailed
  /-- Iterating the `None` returned by `get_pagination_links`. -/
  | typeError
  /-- The accumulated politicians of all listing pages. -/
  | found (politicians : List PoliticianData)
  deriving Repr, DecidableEq

/-- The listing phase common to `scrape_leaders` and
`scrape_leaders_threaded`. -/
def listingPhase (w : World) (url category : String) : ListingOutcome :=
  match w.fetchListing url with
  | none => .seedFailed
  | some html =>
    let politicians := parse_politician_list_page (some html) category
    match get_pagination_links html with
    | none => .typeError
    | some pagination_urls =>
      .found (politicians ++ pagination_urls.flatMap fun page_url =>
        parse_politician_list_page (w.fetchListing page_url) category)

/-- `scrape_leaders(self, url, category, subcategory=None)` (lines 65-108):
the sequential mode.  The result is the returned `detailed_politicians` list
together with the per-record files written along the way. -/
def scrape_leaders (w : World) (url category : String) (subcategory : Option String) :
    Except ScrapeAbort (List PoliticianData × List SavedFile) :=
  match listingPhase w url category with
  | .seedFailed => .ok ([], [])
  | .typeError => .error .typeError
  | .found politicians => .ok (seqDetailLoop w category subcategory politicians)

/-- The inner `process_politician` of `scrape_leaders_threaded` (lines
480-495): returns the detailed record (with its written file) or `None` when
an exception occurred. -/
def process_politician (w : World) (category : String) (subcategory : Option String)
    (politician : PoliticianData) : Option (PoliticianData × SavedFile) :=
  let detail_html := w.fetchDetail politician.profile_url
  let detailed_data := withSub subcategory (parse_politician_detail_page detail_html politician)
  if w.saveOk detailed_data then
    some (detailed_data, savedFileFor category detailed_data)
  else none

/-- `scrape_leaders_threaded(self, url, category, subcategory=None)` (lines
453-505): `executor.map` yields the results in input order; the `None`
entries of failed politicians are filtered out afterwards.  Each worker
writes to a distinct file path, so the write log is modelled in task order. -/
def scrape_leaders_threaded (w : World) (url category : String)
    (subcategory : Option String) :
    Except ScrapeAbort (List PoliticianData × List SavedFile) :=
  match listingPhase w url category with
  | .seedFailed => .ok ([], [])
  | .typeError => .error .typeError
  | .found politicians =>
    let results := politicians.map (process_politician w category subcategory)
    let kept := results.filterMap id
    .ok (kept.map Prod.fst, kept.map Prod.snd)

/-! ## Spec-side auxiliary definitions and concrete inputs -/

/-- A string that is exactly an ISO `YYYY-MM-DD` date shape (what the
specification calls "matches ISO YYYY-MM-DD exactly"; no calendar
validation, like the original). -/
def isExactIsoShape (s : String) : Bool :=
  match s.toList with
  | [a, b, c, d, '-', e, f, '-', g, h] =>
    a.isDigit && b.isDigit && c.isDigit && d.isDigit &&
      e.isDigit && f.isDigit && g.isDigit && h.isDigit
  | _ => false

/-- A listing page with no numbered pagination links at all. -/
def htmlNoLinks : ListingHtml := { cards := [], paginationHrefs := [] }

/-- A listing page whose pagination links point at pages `[2, 3, 2, 1]`. -/
def htmlPages2321 : ListingHtml :=
  { cards := [], paginationHrefs := ["?page=2", "?page=3", "?page=2", "?page=1"] }

/-- The senate seed URL. -/
def senateUrl : String := "https://mzalendo.com/parliament/senate/"

/-- A senate seed page carrying a numbered link to page 1. -/
def seedHtmlPage1 : ListingHtml :=
  { cards := [], paginationHrefs := ["/parliament/senate/?page=1"] }

/-- A world serving `seedHtmlPage1` at the senate seed URL. -/
def worldPage1 : World :=
  { fetchListing := fun u => if u = senateUrl then some seedHtmlPage1 else none
    fetchDetail := fun _ => none
    saveOk := fun _ => true }

/-- Listing card of a politician whose detail fetch will fail. -/
def cardAlice : CardHtml :=
  { nameLink := some ("Alice Akinyi", "/politicians/alice-akinyi/")
    positionText := some "Senator" }

/-- Listing card of a politician whose detail fetch will succeed. -/
def cardBob : CardHtml :=
  { nameLink := some ("Bob Baraza", "/politicians/bob-baraza/")
    positionText := some "Senator" }

/-- The candidate record `parse_politician_list_page` builds from `cardAlice`. -/
def candAlice : PoliticianData :=
  { name := "Alice Akinyi", position := "Senator",
    profile_url := "https://mzalendo.com/politicians/alice-akinyi/",
    category := "senate" }

/-- The candidate record `parse_politician_list_page` builds from `cardBob`. -/
def candBob : PoliticianData :=
  { name := "Bob Baraza", position := "Senator",
    profile_url := "https://mzalendo.com/politicians/bob-baraza/",
    category := "senate" }

/-- A two-candidate senate seed page. -/
def seedHtmlTwo : ListingHtml := { cards := [cardAlice, cardBob], paginationHrefs := [] }

/-- A world in which Alice's detail fetch exhausts its retries while Bob's
succeeds (with an empty profile page) and every save succeeds. -/
def worldOneFail : World :=
  { fetchListing := fun u => if u = senateUrl then some seedHtmlTwo else none
    fetchDetail := fun u =>
      if u = "https://mzalendo.com/politicians/bob-baraza/" then some {} else none
    saveOk := fun _ => true }

/-- A generic basic-info record for detail-page experiments. -/
def basicX : PoliticianData :=
  { name := "X", position := "P",
    profile_url := "https://mzalendo.com/politicians/x/", category := "senate" }

/-- A detail page whose only content is one statement with the given date
text. -/
def statementPage (dt : String) : DetailHtml :=
  { statements := [{ dateText := some dt, text := some "Serve the people" }] }

/-- A detail page with a party, one statement whose date raises `ValueError`
in the `split('-')` unpacking, and a committee list. -/
def pageBadDate : DetailHtml :=
  { partyText := some "Member of ODM Party"
    statements := [{ dateText := some "2021-05-10-x", text := some "Serve" }]
    committees := some ["Budget Committee"] }

/-- The same page with a well-formed statement date. -/
def pageGoodDate : DetailHtml :=
  { partyText := some "Member of ODM Party"
    statements := [{ dateText := some "2021-05-10", text := some "Serve" }]
    committees := some ["Budget Committee"] }

/-- A statement whose date has an ISO `YYYY-MM-DD` prefix but is not exactly
an ISO date. -/
def stmtBad : StatementHtml :=
  { dateText := some "2021-05-10x", text := some "Serve the people" }

/-- The promise the statements loop builds from `stmtBad`. -/
def promiseBad : Promise :=
  { id := "pr1", description := "Serve the people", category := "Other",
    madeDate := some "2021-05-10x", dueDate := some "2024-05-10x",
    status := "in-progress" }

/-- The attendance records parsed from `pageAttendance`. -/
def attListX : List AttRecord :=
  [{ period := "2020", present := some 8, absent := some 2, total := some 10 },
   { period := "2021", present := some 4, absent := some 1, total := some 5 }]

/-- A detail page with the specification's example attendance table:
`{present: 8, absent: 2}` and `{present: 4, absent: 1}` (so the derived
totals are 10 and 5). -/
def pageAttendance : DetailHtml :=
  { attendance := some
      [{ periodText := some "2020", presentText := some "8", absentText := some "2" },
       { periodText := some "2021", presentText := some "4", absentText := some "1" }] }

/-! ## Characterization of the string primitives -/

theorem listIsPrefixOf_eq (n : List Char) : ∀ l : List Char,
    n.isPrefixOf l = true ↔ ∃ post, l = n ++ post := by
  induction n with
  | nil => intro l; simp [List.isPrefixOf]
  | cons a as ih =>
    intro l
    cases l with
    | nil => simp [List.isPrefixOf]
    | cons b bs =>
      simp only [List.isPrefixOf, Bool.and_eq_true, beq_iff_eq, ih, List.cons_append,
        List.cons.injEq]
      constructor
      · rintro ⟨hab, post, rfl⟩; exact ⟨post, hab.symm, rfl⟩
      · rintro ⟨post, hba, rfl⟩; exact ⟨hba.symm, post, rfl⟩

theorem listIsInfixOf_iff (n : List Char) : ∀ l : List Char,
    listIsInfixOf n l = true ↔ ∃ pre post, l = pre ++ n ++ post := by
  intro l
  induction l with
  | nil =>
    simp only [listIsInfixOf, List.isEmpty_iff]
    constructor
    · rintro rfl; exact ⟨[], [], rfl⟩
    · rintro ⟨pre, post, h⟩
      rcases List.append_eq_nil.mp h.symm with ⟨h1, h2⟩
      exact (List.append_eq_nil.mp h1).2
  | cons c rest ih =>
    simp only [listIsInfixOf, Bool.or_eq_true, listIsPrefixOf_eq, ih]
    constructor
    · rintro (⟨post, h⟩ | ⟨pre, post, h⟩)
      · exact ⟨[], post, by simpa using h⟩
      · exact ⟨c :: pre, post, by simp [h]⟩
    · rintro ⟨pre, post, h⟩
      cases pre with
      | nil => exact Or.inl ⟨post, by simpa using h⟩
      | cons p ps =>
        injection h with h1 h2
        exact Or.inr ⟨ps, post, h2⟩

theorem strContains_iff (hay nee : String) :
    strContains hay nee = true ↔ ∃ pre post, hay.toList = pre ++ nee.toList ++ post :=
  listIsInfixOf_iff nee.toList hay.toList

/-! ## Claim C7: the promise classifier -/

theorem scanKeywords_eq (lower : String) : ∀ kws : List String,
    scanKeywords lower kws = kws.any fun kw => strContains lower kw := by
  intro kws
  induction kws with
  | nil => rfl
  | cons kw rest ih =>
    simp only [scanKeywords, List.any_cons, ih]
    cases strContains lower kw <;> simp

theorem scanCategories_eq (lower : String) : ∀ cks : List (String × List String),
    scanCategories lower cks =
      (match cks.find? (fun ck => ck.2.any fun kw => strContains lower kw) with
       | some ck => ck.1
       | none => "Other") := by
  intro cks
  induction cks with
  | nil => rfl
  | cons ck rest ih =>
    obtain ⟨cat, kws⟩ := ck
    simp only [scanCategories, scanKeywords_eq, List.find?]
    cases h : kws.any fun kw => strContains lower kw <;> simp [h, ih]

/-- Claim C7: `categorize_promise` is a case-insensitive first-match scan over
the ordered categories Education, Healthcare, Infrastructure, Water,
Agriculture, Economy, Security — the earliest-declared category with any
keyword that is a substring of the (lowercased) text wins, a text matching no
keyword yields `"Other"` (this is `categorizeSpec`, whose `strContains` is
exactly substring containment by `strContains_iff`), and a text containing
both "school" and "hospital" is classified as `"Education"`. -/
theorem categorize_promise_first_match :
    (∀ hay nee : String, strContains hay nee = true ↔
        ∃ pre post, hay.toList = pre ++ nee.toList ++ post) ∧
    (∀ t : String, categorize_promise t = categorizeSpec t) ∧
    categorize_promise "We will build a school next to the hospital" = "Education" :=
  ⟨strContains_iff,
   fun t => scanCategories_eq (pyLower t) categories_keywords,
   by decide⟩

/-! ## Claims C10, C5, C4, C3: pagination extraction -/

/-- Claim C10: whenever `get_pagination_links` synthesizes a first-page URL
(no collected link contains `'page=1'`), the synthesized, prepended URL is the
hardcoded national-assembly listing URL, independent of which category's
listing the HTML came from (the function has no category input at all). -/
theorem synthesized_first_page_is_national_assembly (html : ListingHtml)
    (h : (html.paginationHrefs.map (urljoin base_url)).any
        (fun u => strContains u "page=1") = false) :
    ∃ rest, get_pagination_links html =
      some ("https://mzalendo.com/parliament/national_assembly/" :: rest) := by
  simp only [get_pagination_links, h, Bool.not_false, if_true]
  exact ⟨_, rfl⟩

/-- Witness for C10 at a senate-style listing with a single page-2 link. -/
theorem synthesized_first_page_witness :
    (((⟨[], ["/parliament/senate/?page=2"]⟩ : ListingHtml).paginationHrefs.map
        (urljoin base_url)).any (fun u => strContains u "page=1") = false) ∧
    ∃ rest, get_pagination_links ⟨[], ["/parliament/senate/?page=2"]⟩ =
      some ("https://mzalendo.com/parliament/national_assembly/" :: rest) :=
  ⟨by decide, synthesized_first_page_is_national_assembly _ (by decide)⟩

/-- Counterexample to claim C5: on a listing with no numbered pagination
links at all, `get_pagination_links` does not yield "no URLs" — the
no-`page=1` branch fires and returns exactly the synthesized canonical
first-page URL. -/
theorem no_links_counterexample :
    htmlNoLinks.paginationHrefs = [] ∧
    get_pagination_links htmlNoLinks =
      some ["https://mzalendo.com/parliament/national_assembly/"] :=
  ⟨rfl, rfl⟩

/-- Claim C5 as amended: when the listing HTML contains no numbered
pagination links at all, `get_pagination_links` yields exactly one URL, the
synthesized canonical first page. -/
theorem no_links_yields_synthesized (html : ListingHtml)
    (h : html.paginationHrefs = []) :
    get_pagination_links html =
      some ["https://mzalendo.com/parliament/national_assembly/"] := by
  unfold get_pagination_links
  rw [h]
  rfl

/-- Witness for the amended C5. -/
theorem no_links_yields_synthesized_witness :
    htmlNoLinks.paginationHrefs = [] ∧
    get_pagination_links htmlNoLinks =
      some ["https://mzalendo.com/parliament/national_assembly/"] :=
  ⟨rfl, no_links_yields_synthesized htmlNoLinks rfl⟩

/-- Claim C4, evaluated at its own example: for pagination links to pages
`[2, 3, 2, 1]` the function returns no list at all — the de-duplication and
the function's only `return` sit inside the `if not any('page=1' …)` branch,
so the presence of the page-1 link makes control fall off the end of the
function (`None`). -/
theorem pagination_2321_returns_none : get_pagination_links htmlPages2321 = none := rfl

/-- Claim C3, evaluated at a failing input: a seed page whose pagination
carries a page-1 link makes `get_pagination_links` return `None`, and both
scrape modes then raise `TypeError` iterating it — the category scrape
aborts instead of degrading. -/
theorem scrape_aborts_on_page1_link :
    get_pagination_links seedHtmlPage1 = none ∧
    scrape_leaders worldPage1 senateUrl "senate" none = .error .typeError ∧
    scrape_leaders_threaded worldPage1 senateUrl "senate" none = .error .typeError :=
  ⟨rfl, rfl, rfl⟩

/-! ## Claim C6: sequential vs threaded mode -/

theorem seqDetailLoop_eq_map (w : World) (category : String) (sub : Option String) :
    ∀ ps : List PoliticianData,
      seqDetailLoop w category sub ps =
        (let kept := (ps.map (process_politician w category sub)).filterMap id
         (kept.map Prod.fst, kept.map Prod.snd)) := by
  intro ps
  induction ps with
  | nil => rfl
  | cons p rest ih =>
    simp only [seqDetailLoop, process_politician, List.map_cons, List.filterMap_cons, ih]
    cases hs : w.saveOk (withSub sub (parse_politician_detail_page
        (w.fetchDetail p.profile_url) p)) <;>
      simp [hs]

/-- Claim C6: over identical fetched pages (one shared `World`), the
sequential mode `scrape_leaders` and the concurrent mode
`scrape_leaders_threaded` return the very same value — in particular the same
set of records keyed by `id`; `executor.map` collects worker results in input
order and each worker writes a distinct file path. -/
theorem scrape_modes_agree (w : World) (url category : String) (sub : Option String) :
    scrape_leaders w url category sub = scrape_leaders_threaded w url category sub := by
  unfold scrape_leaders scrape_leaders_threaded
  cases listingPhase w url category with
  | seedFailed => rfl
  | typeError => rfl
  | found ps => simp only [seqDetailLoop_eq_map]

/-! ## Shape lemmas for the detail sections

Each section of the `try` block only writes its own keys of the politician
dictionary; these lemmas expose that shape so later sections' effects can be
traced through the parse. -/

theorem partyApply_eq (page : DetailHtml) (d : PoliticianData) :
    ∃ x, partyApply page d = { d with party := x } := by
  unfold partyApply
  split
  · exact ⟨d.party, rfl⟩
  · split
    · exact ⟨_, rfl⟩
    · exact ⟨d.party, rfl⟩

theorem countyApply_eq (page : DetailHtml) (d : PoliticianData) :
    ∃ x, countyApply page d = { d with county := x } := by
  unfold countyApply
  split
  · exact ⟨d.county, rfl⟩
  · dsimp only
    split
    · exact ⟨_, rfl⟩
    · exact ⟨d.county, rfl⟩

theorem electionApply_eq (page : DetailHtml) (d : PoliticianData) :
    ∃ x, electionApply page d = { d with election := x } := by
  unfold electionApply
  split
  · exact ⟨d.election, rfl⟩
  · dsimp only
    split
    · exact ⟨_, rfl⟩
    · exact ⟨d.election, rfl⟩

theorem contactApply_eq (page : DetailHtml) (d : PoliticianData) :
    ∃ x, contactApply page d = { d with contact := x } := by
  unfold contactApply
  split
  · exact ⟨d.contact, rfl⟩
  · dsimp only
    repeat' split
    all_goals exact ⟨_, rfl⟩

theorem experienceSection_ok_eq (page : DetailHtml) (d d' : PoliticianData)
    (h : experienceSection page d = .ok d') :
    ∃ e p, d' = { d with education := e, positions := p } := by
  unfold experienceSection at h
  split at h
  · simp only [Except.ok.injEq] at h
    subst h
    repeat' split
    all_goals exact ⟨_, _, rfl⟩
  · split at h
    · simp at h
    · simp only [Except.ok.injEq] at h
      subst h
      exact ⟨_, _, rfl⟩

theorem promisesSection_ok_eq (page : DetailHtml) (d d' : PoliticianData)
    (h : promisesSection page d = .ok d') :
    ∃ res, buildPromises page.statements [] = .ok res ∧
      d' = if res.isEmpty then d else { d with promises := some res } := by
  unfold promisesSection at h
  cases hb : buildPromises page.statements [] with
  | error e =>
    rw [hb] at h
    simp at h
  | ok res =>
    rw [hb] at h
    simp only [Except.ok.injEq] at h
    exact ⟨res, rfl, h.symm⟩

theorem attendanceApply_cases (page : DetailHtml) (d : PoliticianData) :
    attendanceApply page d = d ∨
      ∃ att, att ≠ [] ∧ attendanceApply page d = { d with attendance := some att } := by
  unfold attendanceApply
  split
  · exact Or.inl rfl
  · dsimp only
    split
    · exact Or.inl rfl
    · next hne =>
      exact Or.inr ⟨_, by simpa [List.isEmpty_iff] using hne, rfl⟩

theorem committeesApply_eq (page : DetailHtml) (d : PoliticianData) :
    ∃ x, committeesApply page d = { d with committees := x } := by
  unfold committeesApply
  split
  · exact ⟨d.committees, rfl⟩
  · dsimp only
    split
    · exact ⟨d.committees, rfl⟩
    · exact ⟨_, rfl⟩

theorem approvalApply_eq (d : PoliticianData) :
    ∃ x, approvalApply d = { d with approvalRating := x } := by
  unfold approvalApply
  split
  · exact ⟨d.approvalRating, rfl⟩
  · dsimp only
    split
    · exact ⟨d.approvalRating, rfl⟩
    · split
      · exact ⟨_, rfl⟩
      · exact ⟨d.approvalRating, rfl⟩

theorem achievementsApply_eq (d : PoliticianData) :
    ∃ x, achievementsApply d = { d with keyAchievements := x } := by
  unfold achievementsApply
  split
  · exact ⟨d.keyAchievements, rfl⟩
  · dsimp only
    split
    · exact ⟨d.keyAchievements, rfl⟩
    · split
      · exact ⟨d.keyAchievements, rfl⟩
      · exact ⟨_, rfl⟩

/-- Characterization of the approval-rating derivation. -/
theorem approvalApply_char (d : PoliticianData) :
    (d.attendance = none → approvalApply d = d) ∧
    (∀ att, d.attendance = some att → att = [] → approvalApply d = d) ∧
    (∀ att, d.attendance = some att → sumTotal att = 0 → approvalApply d = d) ∧
    (∀ att, d.attendance = some att → att ≠ [] → 0 < sumTotal att →
      approvalApply d =
        { d with approvalRating := some (pyRound1 (mkRat (sumPresent att * 5 : Int) (sumTotal att))) }) := by
  refine ⟨?_, ?_, ?_, ?_⟩
  · intro h; unfold approvalApply; rw [h]
  · intro att h hnil; unfold approvalApply; rw [h]; subst hnil; rfl
  · intro att h hz
    unfold approvalApply
    rw [h]
    dsimp only
    split
    · rfl
    · rw [if_neg (by omega)]
  · intro att h hne hpos
    unfold approvalApply
    rw [h]
    dsimp only
    rw [if_neg (by simpa [List.isEmpty_iff] using hne), if_pos hpos]

/-- The whole detail parse, decomposed into the section pipeline with its two
possible exception points. -/
theorem parse_some_eq (page : DetailHtml) (b : PoliticianData) :
    parse_politician_detail_page (some page) b =
      detailTail page (contactApply page (electionApply page (countyApply page (partyApply page
        { b with id := some (extractId b.profile_url) })))) := by
  simp only [parse_politician_detail_page, sections, runSections, detailTail]
  cases experienceSection page (contactApply page (electionApply page (countyApply page
      (partyApply page { b with id := some (extractId b.profile_url) })))) with
  | error e => rfl
  | ok d2 =>
    dsimp only
    cases promisesSection page d2 with
    | error e => rfl
    | ok d3 => rfl

/-! ## Claim C2: fault tolerance of the detail sub-sections -/

/-- Counterexample to claim C2: the sub-sections share one `try`/`except`, so
an exception inside one section (here the `ValueError` from unpacking the
statement date `"2021-05-10-x"` in the promises section) skips every later
section — the committees present in the page are lost, while the party parsed
before the exception is kept, so the fallback is not "bare candidate data"
either.  With a well-formed date the same page does yield its committees. -/
theorem section_exception_counterexample :
    (parse_politician_detail_page (some pageBadDate) basicX).committees = none ∧
    (parse_politician_detail_page (some pageBadDate) basicX).party = some "ODM Party" ∧
    (parse_politician_detail_page (some pageGoodDate) basicX).committees =
      some ["Budget Committee"] :=
  ⟨rfl, rfl, rfl⟩

/-- Claim C2 as amended: an exception while parsing a sub-section aborts that
section and every later one (all section bodies live in a single
`try`/`except`); the already-parsed earlier sections are retained, so the
parse returns the candidate data enriched with the id and with every section
completed before the exception — not the bare candidate data. -/
theorem section_exception_aborts_rest (page : DetailHtml) (b d' : PoliticianData)
    (hexp : experienceSection page (contactApply page (electionApply page (countyApply page
        (partyApply page { b with id := some (extractId b.profile_url) })))) = .ok d')
    (hprom : promisesSection page d' = .error ()) :
    parse_politician_detail_page (some page) b = d' := by
  rw [parse_some_eq]
  unfold detailTail
  rw [hexp]
  dsimp only
  rw [hprom]

/-- Witness for the amended C2 at `pageBadDate`: the parse stops right before
the promises section. -/
theorem section_exception_witness :
    parse_politician_detail_page (some pageBadDate) basicX =
      contactApply pageBadDate (electionApply pageBadDate (countyApply pageBadDate
        (partyApply pageBadDate { basicX with id := some (extractId basicX.profile_url) }))) :=
  section_exception_aborts_rest pageBadDate basicX _ rfl rfl

/-! ## Claim C1: a candidate whose detail fetch fails -/

/-- Every candidate whose per-candidate `try` body does not raise (its save
succeeds) contributes its processed record and its file, independent of the
other candidates. -/
theorem seqDetailLoop_mem (w : World) (category : String) (sub : Option String) :
    ∀ (ps : List PoliticianData) (p : PoliticianData), p ∈ ps →
      w.saveOk (withSub sub (parse_politician_detail_page (w.fetchDetail p.profile_url) p)) =
        true →
      withSub sub (parse_politician_detail_page (w.fetchDetail p.profile_url) p) ∈
        (seqDetailLoop w category sub ps).1 ∧
      savedFileFor category
          (withSub sub (parse_politician_detail_page (w.fetchDetail p.profile_url) p)) ∈
        (seqDetailLoop w category sub ps).2 := by
  intro ps
  induction ps with
  | nil => intro p hp _; simp at hp
  | cons q rest ih =>
    intro p hp hsave
    rcases hrest : seqDetailLoop w category sub rest with ⟨ds, fs⟩
    rcases List.mem_cons.mp hp with rfl | hp'
    · simp only [seqDetailLoop, hrest]
      rw [if_pos hsave]
      exact ⟨List.mem_cons_self _ _, List.mem_cons_self _ _⟩
    · have hmem := ih p hp' hsave
      rw [hrest] at hmem
      simp only [seqDetailLoop, hrest]
      by_cases hq : w.saveOk (withSub sub (parse_politician_detail_page
          (w.fetchDetail q.profile_url) q)) = true
      · rw [if_pos hq]
        exact ⟨List.mem_cons_of_mem _ hmem.1, List.mem_cons_of_mem _ hmem.2⟩
      · rw [if_neg hq]
        exact hmem

/-- Counterexample to claim C1: in `worldOneFail`, Alice's detail fetch
exhausts its retries (`get_page` returns `None`), yet she is *not* dropped:
`parse_politician_detail_page` falls back to her bare candidate data, which is
persisted under the name-derived filename `alice-akinyi` and returned in the
record list alongside Bob. -/
theorem failed_fetch_not_dropped :
    worldOneFail.fetchDetail candAlice.profile_url = none ∧
    scrape_leaders worldOneFail senateUrl "senate" none =
      .ok ([candAlice, { candBob with id := some "bob-baraza" }],
           [{ category := "senate", safeId := "alice-akinyi", data := candAlice },
            { category := "senate", safeId := "bob-baraza",
              data := { candBob with id := some "bob-baraza" } }]) :=
  ⟨rfl, rfl⟩

/-- Claim C1 as amended: a candidate whose detail fetch fails after all
retries is *not* dropped — its bare candidate data (no detail enrichment, no
`id` key) is persisted under a name-derived filename and included in the
returned list; a candidate is only dropped when an exception occurs inside
its own per-candidate `try` (a failed save), and that never affects the other
candidates. -/
theorem fetch_failed_candidate_kept (w : World) (url category : String)
    (sub : Option String) (politicians : List PoliticianData) (p : PoliticianData)
    (hlist : listingPhase w url category = .found politicians)
    (hp : p ∈ politicians)
    (hdetail : w.fetchDetail p.profile_url = none)
    (hsave : w.saveOk (withSub sub p) = true) :
    ∃ recs files, scrape_leaders w url category sub = .ok (recs, files) ∧
      withSub sub p ∈ recs ∧ savedFileFor category (withSub sub p) ∈ files := by
  have hparse : parse_politician_detail_page (w.fetchDetail p.profile_url) p = p := by
    rw [hdetail]
    rfl
  have hmem := seqDetailLoop_mem w category sub politicians p hp (by rw [hparse]; exact hsave)
  rw [hparse] at hmem
  unfold scrape_leaders
  rw [hlist]
  exact ⟨_, _, rfl, hmem.1, hmem.2⟩

/-- Witness for the amended C1 at `worldOneFail` and the fetch-failed Alice. -/
theorem fetch_failed_candidate_kept_witness :
    ∃ recs files, scrape_leaders worldOneFail senateUrl "senate" none = .ok (recs, files) ∧
      withSub none candAlice ∈ recs ∧
      savedFileFor "senate" (withSub none candAlice) ∈ files :=
  fetch_failed_candidate_kept worldOneFail senateUrl "senate" none
    [candAlice, candBob] candAlice rfl (List.mem_cons_self _ _) rfl rfl

/-! ## Claim C8: the dueDate derivation -/

/-- Counterexample to claim C8: the claim says a `dueDate` is emitted iff
`madeDate` matches ISO `YYYY-MM-DD` exactly, but `re.match` is not anchored
at the end — `"2021-05-10x"` is not an exact ISO date shape, yet its promise
is emitted with `dueDate = "2024-05-10x"`. -/
theorem dueDate_counterexample :
    isExactIsoShape "2021-05-10x" = false ∧
    (parse_politician_detail_page (some (statementPage "2021-05-10x")) basicX).promises =
      some [promiseBad] :=
  ⟨rfl, rfl⟩

/-- Characterization of the promise built from one statement: a `dueDate`
exists iff the (stripped) date has a digit-digit-digit-digit dash
digit-digit dash digit-digit prefix, and then equals the year component plus
three (unpadded) with the remaining two dash-separated components copied
verbatim. -/
theorem promiseOfStatement_dates (st : StatementHtml) (n : Nat) (pr : Promise)
    (h : promiseOfStatement st n = .ok (some pr)) :
    (pr.madeDate = none → pr.dueDate = none) ∧
    (∀ md, pr.madeDate = some md → isIsoDateStart md = false → pr.dueDate = none) ∧
    (∀ md y m dy, pr.madeDate = some md → isIsoDateStart md = true →
      pySplitChar '-' md = [y, m, dy] →
      pr.dueDate = some (toString (strToNat y + 3) ++ "-" ++ m ++ "-" ++ dy)) := by
  unfold promiseOfStatement at h
  rcases hst : st.text with _ | tx <;> rw [hst] at h
  · simp at h
  dsimp only at h
  by_cases h1 : pyStrip tx = ""
  · rw [if_pos h1] at h; simp at h
  rw [if_neg h1] at h
  rcases hdt : st.dateText with _ | dt0 <;> rw [hdt] at h
  · simp only [Except.ok.injEq, Option.some.injEq] at h
    subst h
    exact ⟨fun _ => rfl, fun md hmd _ => by simp at hmd,
      fun md y m dy hmd _ _ => by simp at hmd⟩
  dsimp only at h
  by_cases h2 : pyStrip dt0 = ""
  · rw [if_pos h2] at h
    simp only [Except.ok.injEq, Option.some.injEq] at h
    subst h
    exact ⟨fun _ => rfl, fun md hmd _ => by simp at hmd,
      fun md y m dy hmd _ _ => by simp at hmd⟩
  rw [if_neg h2] at h
  by_cases hiso : isIsoDateStart (pyStrip dt0) = true
  · rw [if_pos hiso] at h
    rcases hsp : pySplitChar '-' (pyStrip dt0) with _ | ⟨y0, _ | ⟨m0, _ | ⟨d0, _ | ⟨e0, tl⟩⟩⟩⟩ <;>
      rw [hsp] at h <;> try exact Except.noConfusion h
    simp only [Except.ok.injEq, Option.some.injEq] at h
    subst h
    refine ⟨fun hmd => by simp at hmd, fun md hmd hiso2 => ?_,
      fun md y m dy hmd _ hsp2 => ?_⟩
    · injection hmd with hmd
      subst hmd
      rw [hiso] at hiso2
      cases hiso2
    · injection hmd with hmd
      subst hmd
      rw [hsp] at hsp2
      injection hsp2 with e1 hsp2
      injection hsp2 with e2 hsp2
      injection hsp2 with e3 _
      subst e1; subst e2; subst e3
      rfl
  · rw [if_neg hiso] at h
    simp only [Except.ok.injEq, Option.some.injEq] at h
    subst h
    refine ⟨fun hmd => by simp at hmd, fun md hmd _ => rfl,
      fun md y m dy hmd hiso2 _ => ?_⟩
    injection hmd with hmd
    subst hmd
    exact absurd hiso2 hiso

/-- Claim C8 as amended: for every promise the statements loop emits, a
`dueDate` is present iff the stripped `madeDate` merely *starts* with the
shape `\d{4}-\d{2}-\d{2}` (the match is unanchored at the end) and splits on
`'-'` into exactly three parts, and then the `dueDate` is the year plus 3
(unpadded decimal) with the month and day components copied verbatim — so a
non-exact date like `"2021-05-10x"` also gets a `dueDate`, the exact
`"2021-05-10"` yields `"2024-05-10"`, the non-ISO `"10 May 2021"` yields no
`dueDate` field, and an ISO-prefixed date with a fourth dash-separated part
raises a `ValueError` that aborts the parse. -/
theorem dueDate_amended :
    (∀ (stmts : List StatementHtml) (res : List Promise),
      buildPromises stmts [] = .ok res → ∀ p ∈ res,
        (p.madeDate = none → p.dueDate = none) ∧
        (∀ md, p.madeDate = some md → isIsoDateStart md = false → p.dueDate = none) ∧
        (∀ md y m dy, p.madeDate = some md → isIsoDateStart md = true →
          pySplitChar '-' md = [y, m, dy] →
          p.dueDate = some (toString (strToNat y + 3) ++ "-" ++ m ++ "-" ++ dy))) ∧
    buildPromises [{ dateText := some "2021-05-10-x", text := some "Serve the people" }] [] =
      .error () ∧
    (parse_politician_detail_page (some (statementPage "2021-05-10")) basicX).promises =
      some [{ id := "pr1", description := "Serve the people", category := "Other",
              madeDate := some "2021-05-10", dueDate := some "2024-05-10",
              status := "in-progress" }] ∧
    (parse_politician_detail_page (some (statementPage "10 May 2021")) basicX).promises =
      some [{ id := "pr1", description := "Serve the people", category := "Other",
              madeDate := some "10 May 2021", dueDate := none,
              status := "in-progress" }] := by
  refine ⟨?_, rfl, rfl, rfl⟩
  suffices aux : ∀ (stmts : List StatementHtml) (acc res : List Promise),
      buildPromises stmts acc = .ok res → ∀ p ∈ res, p ∈ acc ∨
        ((p.madeDate = none → p.dueDate = none) ∧
         (∀ md, p.madeDate = some md → isIsoDateStart md = false → p.dueDate = none) ∧
         (∀ md y m dy, p.madeDate = some md → isIsoDateStart md = true →
           pySplitChar '-' md = [y, m, dy] →
           p.dueDate = some (toString (strToNat y + 3) ++ "-" ++ m ++ "-" ++ dy))) by
    intro stmts res hb p hp
    rcases aux stmts [] res hb p hp with hin | hφ
    · simp at hin
    · exact hφ
  intro stmts
  induction stmts with
  | nil =>
    intro acc res h p hp
    simp only [buildPromises, Except.ok.injEq] at h
    subst h
    exact Or.inl hp
  | cons st rest ih =>
    intro acc res h p hp
    simp only [buildPromises] at h
    cases hps : promiseOfStatement st acc.length with
    | error e => rw [hps] at h; simp at h
    | ok v =>
      rw [hps] at h
      cases v with
      | none =>
        dsimp only at h
        exact ih acc res h p hp
      | some promise =>
        dsimp only at h
        rcases ih _ res h p hp with hin | hφ
        · rcases List.mem_append.mp hin with hin' | hin''
          · exact Or.inl hin'
          · right
            have hpq : p = promise := by simpa using hin''
            subst hpq
            exact promiseOfStatement_dates st acc.length p hps
        · exact Or.inr hφ

/-- Witness for the amended C8: applying it to the statement with date
`"2021-05-10x"` recovers the emitted `dueDate = "2024-05-10x"`. -/
theorem dueDate_witness : promiseBad.dueDate = some "2024-05-10x" := by
  have h := dueDate_amended.1 [stmtBad] [promiseBad] rfl promiseBad (List.mem_singleton.mpr rfl)
  exact h.2.2 "2021-05-10x" "2021" "05" "10x" rfl rfl rfl

/-! ## Claim C9: the approval-rating derivation -/

/-- The single fraction stored by `approvalApply` is exactly the value
`present / total * 5` of the specification's formula. -/
theorem mkRat_five_div (p t : ℕ) :
    (mkRat (p * 5 : Int) t : ℚ) = (p : ℚ) / (t : ℚ) * 5 := by
  rw [Rat.mkRat_eq_div]
  push_cast
  ring

/-- How the tail of the pipeline settles the attendance and approval-rating
fields, for an input with neither key present. -/
theorem detailTail_approval (page : DetailHtml) (d1 : PoliticianData)
    (h1 : d1.attendance = none) (h2 : d1.approvalRating = none) :
    ((detailTail page d1).attendance = none ∧ (detailTail page d1).approvalRating = none) ∨
      ∃ att, att ≠ [] ∧ (detailTail page d1).attendance = some att ∧
        ((sumTotal att = 0 ∧ (detailTail page d1).approvalRating = none) ∨
         (0 < sumTotal att ∧ (detailTail page d1).approvalRating =
           some (pyRound1 (mkRat (sumPresent att * 5 : Int) (sumTotal att))))) := by
  unfold detailTail
  cases hexp : experienceSection page d1 with
  | error e => exact Or.inl ⟨h1, h2⟩
  | ok d2 =>
    obtain ⟨e, p, he⟩ := experienceSection_ok_eq page d1 d2 hexp
    have h2A : d2.attendance = none := by rw [he]; exact h1
    have h2R : d2.approvalRating = none := by rw [he]; exact h2
    dsimp only
    cases hprom : promisesSection page d2 with
    | error e2 => exact Or.inl ⟨h2A, h2R⟩
    | ok d3 =>
      obtain ⟨res, hbp, he3⟩ := promisesSection_ok_eq page d2 d3 hprom
      have h3A : d3.attendance = none := by
        rw [he3]; split
        · exact h2A
        · exact h2A
      have h3R : d3.approvalRating = none := by
        rw [he3]; split
        · exact h2R
        · exact h2R
      dsimp only
      rcases attendanceApply_cases page d3 with h4 | ⟨att, hattne, h4⟩
      · rw [h4]
        obtain ⟨x5, e5⟩ := committeesApply_eq page d3
        rw [e5]
        rw [(approvalApply_char ({ d3 with committees := x5 } : PoliticianData)).1 h3A]
        obtain ⟨x6, e6⟩ := achievementsApply_eq ({ d3 with committees := x5 } : PoliticianData)
        rw [e6]
        exact Or.inl ⟨h3A, h3R⟩
      · rw [h4]
        obtain ⟨x5, e5⟩ := committeesApply_eq page ({ d3 with attendance := some att } : PoliticianData)
        rw [e5]
        rcases Nat.eq_zero_or_pos (sumTotal att) with hz | hpos
        · rw [(approvalApply_char _).2.2.1 att rfl hz]
          obtain ⟨x6, e6⟩ := achievementsApply_eq
            ({ { d3 with attendance := some att } with committees := x5 } : PoliticianData)
          rw [e6]
          exact Or.inr ⟨att, hattne, rfl, Or.inl ⟨hz, h3R⟩⟩
        · rw [(approvalApply_char _).2.2.2 att rfl hattne hpos]
          obtain ⟨x6, e6⟩ := achievementsApply_eq
            ({ { { d3 with attendance := some att } with committees := x5 } with
              approvalRating := some (pyRound1 (mkRat (sumPresent att * 5 : Int) (sumTotal att))) }
              : PoliticianData)
          rw [e6]
          exact Or.inr ⟨att, hattne, rfl, Or.inr ⟨hpos, rfl⟩⟩

/-- Claim C9: for a candidate record with neither an `attendance` nor an
`approvalRating` key (every candidate enters the detail parse this way), the
parsed record's `approvalRating` is present iff its `attendance` list is
non-empty with `sum(total) > 0` (missing `present`/`total` counted as 0), and
then equals `round(sum(present) / sum(total) * 5, 1)` with Python's
round-half-to-even. -/
theorem approvalRating_spec (page : DetailHtml) (b : PoliticianData)
    (hA : b.attendance = none) (hR : b.approvalRating = none) :
    ((parse_politician_detail_page (some page) b).approvalRating.isSome = true ↔
      ∃ att, (parse_politician_detail_page (some page) b).attendance = some att ∧
        att ≠ [] ∧ 0 < sumTotal att) ∧
    (∀ att, (parse_politician_detail_page (some page) b).attendance = some att →
      0 < sumTotal att →
      (parse_politician_detail_page (some page) b).approvalRating =
        some (pyRound1 ((sumPresent att : ℚ) / (sumTotal att : ℚ) * 5))) := by
  have hd1A : (contactApply page (electionApply page (countyApply page (partyApply page
      { b with id := some (extractId b.profile_url) })))).attendance = none := by
    obtain ⟨x1, e1⟩ := partyApply_eq page { b with id := some (extractId b.profile_url) }
    obtain ⟨x2, e2⟩ := countyApply_eq page
      (partyApply page { b with id := some (extractId b.profile_url) })
    obtain ⟨x3, e3⟩ := electionApply_eq page (countyApply page
      (partyApply page { b with id := some (extractId b.profile_url) }))
    obtain ⟨x4, e4⟩ := contactApply_eq page (electionApply page (countyApply page
      (partyApply page { b with id := some (extractId b.profile_url) })))
    rw [e4, e3, e2, e1]
    exact hA
  have hd1R : (contactApply page (electionApply page (countyApply page (partyApply page
      { b with id := some (extractId b.profile_url) })))).approvalRating = none := by
    obtain ⟨x1, e1⟩ := partyApply_eq page { b with id := some (extractId b.profile_url) }
    obtain ⟨x2, e2⟩ := countyApply_eq page
      (partyApply page { b with id := some (extractId b.profile_url) })
    obtain ⟨x3, e3⟩ := electionApply_eq page (countyApply page
      (partyApply page { b with id := some (extractId b.profile_url) }))
    obtain ⟨x4, e4⟩ := contactApply_eq page (electionApply page (countyApply page
      (partyApply page { b with id := some (extractId b.profile_url) })))
    rw [e4, e3, e2, e1]
    exact hR
  have key := detailTail_approval page (contactApply page (electionApply page (countyApply page
    (partyApply page { b with id := some (extractId b.profile_url) })))) hd1A hd1R
  rw [parse_some_eq]
  constructor
  · constructor
    · intro hsome
      rcases key with ⟨hA', hR'⟩ | ⟨att, hne, hAtt, hcase⟩
      · rw [hR'] at hsome; simp at hsome
      · rcases hcase with ⟨hz, hR'⟩ | ⟨hpos, hval⟩
        · rw [hR'] at hsome; simp at hsome
        · exact ⟨att, hAtt, hne, hpos⟩
    · rintro ⟨att, hAtt, hne, hpos⟩
      rcases key with ⟨hA', hR'⟩ | ⟨att', hne', hAtt', hcase⟩
      · rw [hA'] at hAtt; cases hAtt
      · rw [hAtt'] at hAtt
        injection hAtt with heq
        subst heq
        rcases hcase with ⟨hz, _⟩ | ⟨_, hval⟩
        · omega
        · rw [hval]; rfl
  · intro att hAtt hpos
    rcases key with ⟨hA', _⟩ | ⟨att', hne', hAtt', hcase⟩
    · rw [hA'] at hAtt; cases hAtt
    · rw [hAtt'] at hAtt
      injection hAtt with heq
      subst heq
      rcases hcase with ⟨hz, _⟩ | ⟨_, hval⟩
      · omega
      · rw [hval, mkRat_five_div]

/-- Witness for C9 at the specification's example attendance table
`[{present: 8, total: 10}, {present: 4, total: 5}]`: the rating is
`round(12/15 * 5, 1) = 4.0`. -/
theorem approvalRating_witness :
    (parse_politician_detail_page (some pageAttendance) basicX).approvalRating = some 4 := by
  have h := (approvalRating_spec pageAttendance basicX rfl rfl).2 attListX rfl (by decide)
  rw [h, ← mkRat_five_div (sumPresent attListX) (sumTotal attListX)]
  decide

end Mzalendo
